import Mathlib

/-!
Verification of the external stats aggregation and fallback synthesis logic
of the Devlink repository.  The definitions below are a shallow embedding of
the Express route handlers for the GitHub and LeetCode stat endpoints and of
the React dashboard helpers they serve.  JavaScript numbers are modelled by
Nat or Int (counts are Nat, epoch-millisecond timestamps are Int; ISO date
strings are modelled by the epoch value that determines them, since
toISOString is injective on milliseconds).  JavaScript float division inside
the seeded selector is modelled by exact natural division; none of the
verified properties depend on the value, only on determinism and bounds.
-/

/-- Model of the seeded selector defined in the GitHub username route:
random(min, max) = Math.floor(((seed % 1000) / 1000) * (max - min + 1)) + min.
The float quotient is modelled by exact natural division. -/
def jsRandom (seed min max : Nat) : Nat :=
  seed % 1000 * (max - min + 1) / 1000 + min

/-- Model of the seed derivation: username.split("").reduce((acc, c) => acc + c.charCodeAt(0), 0).
Char.toNat agrees with the UTF-16 code unit for all basic-plane characters. -/
def seedOf (username : String) : Nat :=
  (username.data.map Char.toNat).sum

/-- Model of username.charAt(0).toUpperCase() + username.slice(1). -/
def capitalizeJs (s : String) : String :=
  match s.data with
  | [] => ""
  | c :: rest => String.mk (c.toUpper :: rest)

/-- Replace the first occurrence of pat in a character list by rep, leaving
the list unchanged when pat does not occur. -/
def replaceFirstChars (pat rep : List Char) : List Char → List Char
  | [] => []
  | c :: cs =>
    if pat.isPrefixOf (c :: cs) then rep ++ (c :: cs).drop pat.length
    else c :: replaceFirstChars pat rep cs

/-- Model of JavaScript String.prototype.replace with a plain-string pattern,
which replaces only the first occurrence. -/
def jsReplaceFirst (s pat rep : String) : String :=
  String.mk (replaceFirstChars pat.data rep.data s.data)

/-- Model of the JavaScript idiom (expr || null) applied to an optional
string: undefined and the empty string both collapse to null. -/
def jsOrNullStr (o : Option String) : Option String :=
  match o with
  | some s => if s = "" then none else some s
  | none => none

/-- Raw GitHub user payload (response of api.github.com/users/:username),
restricted to the fields the handler reads. -/
structure GhUserData where
  login : String
  name : Option String
  avatar_url : String
  bio : Option String
  company : Option String
  blog : Option String
  location : Option String
  followers : Nat
  following : Nat
  public_repos : Nat
  public_gists : Nat
deriving DecidableEq

/-- Raw GitHub repository payload entry, restricted to the fields read. -/
structure GhRepo where
  name : String
  description : Option String
  stargazers_count : Nat
  forks_count : Nat
  html_url : String
  language : Option String
  updated_at : Int
deriving DecidableEq

/-- Entry of the languages histogram in the formatted GitHub record. -/
structure LangStat where
  name : String
  count : Nat
deriving DecidableEq

/-- Entry of topRepos in the formatted GitHub record. -/
structure RepoEntry where
  name : String
  description : Option String
  stars : Nat
  forks : Nat
  url : String
  language : Option String
  updatedAt : Int
deriving DecidableEq

/-- The formatted githubStats record produced by both the real-data branch
and the mock-data branch of the GitHub username route. -/
structure GithubStatsRec where
  username : String
  name : Option String
  avatarUrl : String
  bio : Option String
  company : Option String
  blog : Option String
  location : Option String
  followers : Nat
  following : Nat
  publicRepos : Nat
  publicGists : Nat
  totalStars : Nat
  languages : List LangStat
  topRepos : List RepoEntry
  dataSource : String
  lastUpdated : Int
deriving DecidableEq

/-- The fixed language vocabulary of the mock-data branch. -/
def mockLanguages : List String :=
  ["JavaScript", "Python", "Java", "TypeScript", "C++", "Go", "Rust", "PHP"]

/-- The fixed repository-name vocabulary of the mock-data branch. -/
def mockRepoNames : List String :=
  ["awesome-project", "web-app", "api-server", "mobile-app", "data-analysis",
   "machine-learning", "portfolio-website", "chat-application", "e-commerce",
   "blog-platform", "task-manager", "weather-app", "social-media", "game-engine"]

/-- The mock-data synthesis branch of the GitHub username route.  The now
argument is the current epoch time in milliseconds: the source writes
new Date().toISOString() into lastUpdated and Date.now() minus a seeded
number of days into each updatedAt. -/
def mockGithubStats (username : String) (now : Int) : GithubStatsRec :=
  let seed := seedOf username
  let selectedLanguages :=
    (mockLanguages.take (jsRandom seed 3 6)).map fun lang =>
      ({ name := lang, count := jsRandom seed 1 15 } : LangStat)
  let topRepos :=
    (mockRepoNames.take (jsRandom seed 3 8)).map fun nm =>
      ({ name := nm ++ "-" ++ toString (jsRandom seed 1 99),
         description := some ("A " ++ jsReplaceFirst nm "-" " " ++ " built with modern technologies"),
         stars := jsRandom seed 0 150,
         forks := jsRandom seed 0 50,
         url := "https://github.com/" ++ username ++ "/" ++ nm,
         language := some (match selectedLanguages[jsRandom seed 0 (selectedLanguages.length - 1)]? with
           | some l => if l.name = "" then "JavaScript" else l.name
           | none => "JavaScript"),
         updatedAt := now - (jsRandom seed 1 90 : Nat) * 86400000 } : RepoEntry)
  { username := username,
    name := some (capitalizeJs username),
    avatarUrl := "https://github.com/" ++ username ++ ".png",
    bio := some "Software developer passionate about coding and open source",
    company := if jsRandom seed 0 1 ≠ 0 then some "Tech Company" else none,
    blog := if jsRandom seed 0 1 ≠ 0 then some ("https://" ++ username ++ ".dev") else none,
    location := some (["San Francisco", "New York", "London", "Berlin", "Tokyo"].getD (jsRandom seed 0 4) ""),
    followers := jsRandom seed 10 500,
    following := jsRandom seed 20 200,
    publicRepos := jsRandom seed 5 50,
    publicGists := jsRandom seed 0 20,
    totalStars := topRepos.foldl (fun acc r => acc + r.stars) 0,
    languages := selectedLanguages,
    topRepos := topRepos,
    dataSource := "Mock Data (GitHub API unavailable)",
    lastUpdated := now }

/-- The languages accumulator of the real-data branch: a JavaScript object
used as a counting map, with first-insertion key order, turned into entries
by Object.entries. -/
def countLanguages (repos : List GhRepo) : List (String × Nat) :=
  repos.foldl
    (fun acc r =>
      match r.language with
      | none => acc
      | some lang =>
        if acc.any (fun p => p.1 == lang) then
          acc.map (fun p => if p.1 == lang then (p.1, p.2 + 1) else p)
        else acc ++ [(lang, 1)])
    []

/-- Comparator model for the JavaScript sort (a, b) => b.count - a.count on
language entries: a may precede b exactly when its count is not smaller. -/
def langCmpLe (a b : LangStat) : Bool :=
  decide (b.count ≤ a.count)

/-- Comparator model for the JavaScript sort (a, b) => b.stargazers_count - a.stargazers_count. -/
def repoCmpLe (a b : GhRepo) : Bool :=
  decide (b.stargazers_count ≤ a.stargazers_count)

/-- The real-data branch of the GitHub username route, formatting the two
upstream payloads into the githubStats record.  JavaScript Array.prototype.sort
is stable, so it is modelled by List.mergeSort. -/
def realGithubStats (ud : GhUserData) (repos : List GhRepo) (now : Int) : GithubStatsRec :=
  let totalStars := repos.foldl (fun acc r => acc + r.stargazers_count) 0
  let languageStats :=
    (((countLanguages repos).map fun p => ({ name := p.1, count := p.2 } : LangStat)).mergeSort
      langCmpLe).take 5
  let topRepos :=
    ((repos.mergeSort repoCmpLe).take 5).map fun r =>
      ({ name := r.name, description := r.description, stars := r.stargazers_count,
         forks := r.forks_count, url := r.html_url, language := r.language,
         updatedAt := r.updated_at } : RepoEntry)
  { username := ud.login,
    name := ud.name,
    avatarUrl := ud.avatar_url,
    bio := ud.bio,
    company := ud.company,
    blog := ud.blog,
    location := ud.location,
    followers := ud.followers,
    following := ud.following,
    publicRepos := ud.public_repos,
    publicGists := ud.public_gists,
    totalStars := totalStars,
    languages := languageStats,
    topRepos := topRepos,
    dataSource := "GitHub API",
    lastUpdated := now }

/-- Response envelope of the GitHub routes. -/
structure GhEnvelope where
  status : Nat
  success : Bool
  data : Option GithubStatsRec
  error : Option String
deriving DecidableEq

/-- The GitHub username route.  The two axios results are passed in as typed
results; the inner try-catch means the real-data branch runs only when both
calls succeed, and any failure (either call throwing) lands in the mock-data
branch, which still answers status 200 with success true. -/
def githubUsernameHandler (username : String) (now : Int)
    (userRes : Except String GhUserData) (reposRes : Except String (List GhRepo)) : GhEnvelope :=
  match userRes, reposRes with
  | Except.ok ud, Except.ok repos =>
    { status := 200, success := true, data := some (realGithubStats ud repos now), error := none }
  | _, _ =>
    { status := 200, success := true, data := some (mockGithubStats username now), error := none }

/-- LeetCode badge entry, passed through unmodified. -/
structure LcBadge where
  id : String
  displayName : String
  icon : String
deriving DecidableEq

/-- Entry of problemsSolvedBeatsStats, passed through unmodified.  The
percentage is a JavaScript number never inspected by the handler; it is
modelled by Int. -/
structure BeatsStat where
  difficulty : String
  percentage : Int
deriving DecidableEq

/-- Entry of recentSubmissionList, passed through unmodified. -/
structure LcSubmission where
  id : String
  title : String
  titleSlug : String
  timestamp : Int
  statusDisplay : String
  lang : String
deriving DecidableEq

/-- Entry of submitStats.acSubmissionNum in the GraphQL payload. -/
structure AcSubmission where
  difficulty : String
  count : Nat
  submissions : Nat
deriving DecidableEq

/-- Tag-count entry of tagProblemCounts in the GraphQL payload. -/
structure TagCount where
  tagName : String
  problemsSolved : Nat
deriving DecidableEq

/-- The three tag-count tiers of the GraphQL payload. -/
structure TagProblemCounts where
  advanced : Option (List TagCount)
  intermediate : Option (List TagCount)
  fundamental : Option (List TagCount)
deriving DecidableEq

/-- submitStats of the GraphQL payload. -/
structure SubmitStats where
  acSubmissionNum : Option (List AcSubmission)
deriving DecidableEq

/-- profile of matchedUser in the GraphQL payload. -/
structure LcProfileInfo where
  ranking : Option Nat
  reputation : Option Nat
  starRating : Option Nat
  realName : Option String
deriving DecidableEq

/-- badge of userContestRanking in the GraphQL payload. -/
structure ContestBadge where
  name : Option String
deriving DecidableEq

/-- userContestRanking of the GraphQL payload. -/
structure ContestRanking where
  attendedContestsCount : Option Nat
  rating : Option Nat
  globalRanking : Option Nat
  totalParticipants : Option Nat
  topPercentage : Option Int
  badge : Option ContestBadge
deriving DecidableEq

/-- matchedUser of the GraphQL payload. -/
structure MatchedUser where
  username : String
  submitStats : Option SubmitStats
  profile : Option LcProfileInfo
  badges : Option (List LcBadge)
  tagProblemCounts : Option TagProblemCounts
  problemsSolvedBeatsStats : Option (List BeatsStat)
deriving DecidableEq

/-- The GraphQL payload response.data.data read by the LeetCode routes. -/
structure LcUserData where
  matchedUser : Option MatchedUser
  userContestRanking : Option ContestRanking
  recentSubmissionList : Option (List LcSubmission)
deriving DecidableEq

/-- The formatted leetcodeStats record built by the LeetCode routes. -/
structure LeetcodeStats where
  username : Option String
  ranking : Option Nat
  reputation : Option Nat
  realName : Option String
  totalSolved : Nat
  easySolved : Nat
  mediumSolved : Nat
  hardSolved : Nat
  contestAttended : Nat
  contestRating : Nat
  contestGlobalRanking : Nat
  contestBadge : Option String
  badges : List LcBadge
  beatsPercentage : List BeatsStat
  recentSubmissions : List LcSubmission
  topTags : List TagCount
deriving DecidableEq

/-- The optional-chaining path userData.matchedUser?.submitStats?.acSubmissionNum. -/
def lcAcNum (ud : LcUserData) : Option (List AcSubmission) :=
  (ud.matchedUser.bind fun m => m.submitStats).bind fun s => s.acSubmissionNum

/-- Concatenation of the three tag-count tiers, each defaulting to the empty
list, exactly as the spread expression in the source builds it. -/
def lcMergedTags (ud : LcUserData) : List TagCount :=
  ((ud.matchedUser.bind fun m => m.tagProblemCounts).bind fun t => t.advanced).getD [] ++
  ((ud.matchedUser.bind fun m => m.tagProblemCounts).bind fun t => t.intermediate).getD [] ++
  ((ud.matchedUser.bind fun m => m.tagProblemCounts).bind fun t => t.fundamental).getD []

/-- Comparator model for the JavaScript sort (a, b) => b.problemsSolved - a.problemsSolved. -/
def tagCmpLe (a b : TagCount) : Bool :=
  decide (b.problemsSolved ≤ a.problemsSolved)

/-- The formatting block shared verbatim by both LeetCode routes.  Each
(x || 0) default is modelled by getD 0, which agrees with JavaScript because
the only falsy number reachable is 0 itself; (badge?.name || null) is
modelled by jsOrNullStr.  JavaScript Array.prototype.sort is stable, so the
topTags sort is modelled by List.mergeSort with the comparator order. -/
def leetcodeStats (ud : LcUserData) : LeetcodeStats :=
  { username := ud.matchedUser.map fun m => m.username,
    ranking := (ud.matchedUser.bind fun m => m.profile).bind fun p => p.ranking,
    reputation := (ud.matchedUser.bind fun m => m.profile).bind fun p => p.reputation,
    realName := (ud.matchedUser.bind fun m => m.profile).bind fun p => p.realName,
    totalSolved :=
      (((lcAcNum ud).bind fun l => l.find? fun i => i.difficulty == "All").map fun i => i.count).getD 0,
    easySolved :=
      (((lcAcNum ud).bind fun l => l.find? fun i => i.difficulty == "Easy").map fun i => i.count).getD 0,
    mediumSolved :=
      (((lcAcNum ud).bind fun l => l.find? fun i => i.difficulty == "Medium").map fun i => i.count).getD 0,
    hardSolved :=
      (((lcAcNum ud).bind fun l => l.find? fun i => i.difficulty == "Hard").map fun i => i.count).getD 0,
    contestAttended := (ud.userContestRanking.bind fun c => c.attendedContestsCount).getD 0,
    contestRating := (ud.userContestRanking.bind fun c => c.rating).getD 0,
    contestGlobalRanking := (ud.userContestRanking.bind fun c => c.globalRanking).getD 0,
    contestBadge := jsOrNullStr ((ud.userContestRanking.bind fun c => c.badge).bind fun b => b.name),
    badges := (ud.matchedUser.bind fun m => m.badges).getD [],
    beatsPercentage := (ud.matchedUser.bind fun m => m.problemsSolvedBeatsStats).getD [],
    recentSubmissions := ud.recentSubmissionList.getD [],
    topTags := ((lcMergedTags ud).mergeSort tagCmpLe).take 5 }

/-- Response envelope of the LeetCode routes. -/
structure LcEnvelope where
  status : Nat
  success : Bool
  data : Option LeetcodeStats
  error : Option String
deriving DecidableEq

/-- The LeetCode username route.  Its only catch handler answers status 500
with success false: unlike the GitHub route it has no mock-data branch. -/
def leetcodeUsernameHandler (_username : String) (upstream : Except String LcUserData) : LcEnvelope :=
  match upstream with
  | Except.ok ud =>
    { status := 200, success := true, data := some (leetcodeStats ud), error := none }
  | Except.error _ =>
    { status := 500, success := false, data := none, error := some "Error fetching LeetCode stats" }

/-- A platform binding stored on a profile. -/
structure PlatformBinding where
  name : String
  username : String
deriving DecidableEq

/-- The stored profile, restricted to the platforms list the routes read. -/
structure Profile where
  platforms : List PlatformBinding
deriving DecidableEq

/-- The authenticated LeetCode route.  The profile lookup result is passed
in; a missing profile or a missing LeetCode binding answers 404 before any
upstream call.  The remaining body repeats the username route verbatim in
the source, so it is modelled by leetcodeUsernameHandler. -/
def leetcodeProfileHandler (p : Option Profile) (upstream : Except String LcUserData) : LcEnvelope :=
  match p with
  | none => { status := 404, success := false, data := none, error := some "Profile not found" }
  | some prof =>
    match prof.platforms.find? fun pl => pl.name == "LeetCode" with
    | none => { status := 404, success := false, data := none, error := some "LeetCode profile not found" }
    | some pl => leetcodeUsernameHandler pl.username upstream

/-- Model of the username extraction in the authenticated GitHub route: if
the stored value contains github.com/, keep what follows the first
occurrence and strip one trailing slash. -/
def extractGithubUsername (username : String) : String :=
  if (username.splitOn "github.com/").length > 1 then
    let after := (username.splitOn "github.com/").getD 1 ""
    if after.endsWith "/" then after.dropRight 1 else after
  else username

/-- The authenticated GitHub route.  A missing profile or binding answers
404; otherwise the request is forwarded to the username route and its
envelope body is re-sent with status 200. -/
def githubProfileHandler (p : Option Profile) (now : Int)
    (userRes : Except String GhUserData) (reposRes : Except String (List GhRepo)) : GhEnvelope :=
  match p with
  | none => { status := 404, success := false, data := none, error := some "Profile not found" }
  | some prof =>
    match prof.platforms.find? fun pl => pl.name == "GitHub" with
    | none => { status := 404, success := false, data := none, error := some "GitHub profile not found" }
    | some pl =>
      let inner := githubUsernameHandler (extractGithubUsername pl.username) now userRes reposRes
      { status := 200, success := inner.success, data := inner.data, error := inner.error }

/-- An outbound upstream request as the routes construct it: target URL and
the timeout option passed to axios, if any. -/
structure RequestSpec where
  url : String
  timeoutMs : Option Nat
deriving DecidableEq

/-- The two requests of the GitHub username route; both axios.get calls pass
timeout 5000. -/
def githubUpstreamRequests (username : String) : List RequestSpec :=
  [{ url := "https://api.github.com/users/" ++ username, timeoutMs := some 5000 },
   { url := "https://api.github.com/users/" ++ username ++ "/repos?per_page=100&sort=updated",
     timeoutMs := some 5000 }]

/-- The GraphQL request of the LeetCode routes; the axios.post call passes
no timeout option. -/
def leetcodeUpstreamRequest : RequestSpec :=
  { url := "https://leetcode.com/graphql", timeoutMs := none }

/-- All upstream requests the stat endpoints construct for one username. -/
def statUpstreamRequests (username : String) : List RequestSpec :=
  githubUpstreamRequests username ++ [leetcodeUpstreamRequest]

/-- Specification-side reading of the difficulty extraction: find the entry
whose difficulty label equals the given label and take its count, defaulting
to 0 when no matching entry exists. -/
def specDifficultyCount (label : String) (entries : List AcSubmission) : Nat :=
  match entries.find? fun e => e.difficulty == label with
  | some e => e.count
  | none => 0

/-- Erase the two time-derived fields of a githubStats record: lastUpdated
and the updatedAt of every topRepos entry. -/
def stripTimestamps (g : GithubStatsRec) : GithubStatsRec :=
  { g with lastUpdated := 0,
           topRepos := g.topRepos.map fun r => { r with updatedAt := 0 } }

/-- Field names of the real-data githubStats object literal, in source
order (lines 635-663 of the concatenated source file). -/
def ghRealFieldNames : List String :=
  ["username", "name", "avatarUrl", "bio", "company", "blog", "location",
   "followers", "following", "publicRepos", "publicGists", "totalStars",
   "languages", "topRepos", "dataSource", "lastUpdated"]

/-- Field names of the mock-data githubStats object literal, in source
order (lines 701-718 of the concatenated source file). -/
def ghMockFieldNames : List String :=
  ["username", "name", "avatarUrl", "bio", "company", "blog", "location",
   "followers", "following", "publicRepos", "publicGists", "totalStars",
   "languages", "topRepos", "dataSource", "lastUpdated"]

/-- Field names of a topRepos entry in the real-data branch, in source order. -/
def ghRealRepoFieldNames : List String :=
  ["name", "description", "stars", "forks", "url", "language", "updatedAt"]

/-- Field names of a topRepos entry in the mock-data branch, in source order. -/
def ghMockRepoFieldNames : List String :=
  ["name", "description", "stars", "forks", "url", "language", "updatedAt"]

/-- Field names of a languages entry in the real-data branch. -/
def ghRealLangFieldNames : List String :=
  ["name", "count"]

/-- Field names of a languages entry in the mock-data branch. -/
def ghMockLangFieldNames : List String :=
  ["name", "count"]

/-- The LeetCode payload of the spec example: submission counts for Easy
and Hard only, with no All entry. -/
def exampleLcNoAll : LcUserData :=
  { matchedUser := some
      { username := "tester",
        submitStats := some
          { acSubmissionNum := some
              [{ difficulty := "Easy", count := 3, submissions := 5 },
               { difficulty := "Hard", count := 1, submissions := 2 }] },
        profile := none,
        badges := none,
        tagProblemCounts := none,
        problemsSolvedBeatsStats := none },
    userContestRanking := none,
    recentSubmissionList := none }

/-- A LeetCode payload with tag counts in all three tiers, used to witness
the topTags characterization on a concrete input. -/
def exampleLcTags : LcUserData :=
  { matchedUser := some
      { username := "tagger",
        submitStats := none,
        profile := none,
        badges := none,
        tagProblemCounts := some
          { advanced := some [{ tagName := "dp", problemsSolved := 4 }],
            intermediate := some [{ tagName := "graph", problemsSolved := 7 },
                                  { tagName := "greedy", problemsSolved := 4 }],
            fundamental := some [{ tagName := "array", problemsSolved := 9 }] },
        problemsSolvedBeatsStats := none },
    userContestRanking := none,
    recentSubmissionList := none }

/-- A GitHub user payload used for concrete evaluations. -/
def exGhUser : GhUserData :=
  { login := "octo", name := some "Octo", avatar_url := "https://example.org/a.png",
    bio := none, company := none, blog := none, location := none,
    followers := 1, following := 2, public_repos := 3, public_gists := 0 }

/-- The repository list of the spec example, with star counts 5, 0 and 12. -/
def exampleStarRepos : List GhRepo :=
  [{ name := "r1", description := none, stargazers_count := 5, forks_count := 0,
     html_url := "https://example.org/r1", language := none, updated_at := 0 },
   { name := "r2", description := none, stargazers_count := 0, forks_count := 0,
     html_url := "https://example.org/r2", language := none, updated_at := 0 },
   { name := "r3", description := none, stargazers_count := 12, forks_count := 1,
     html_url := "https://example.org/r3", language := none, updated_at := 0 }]

/-- A stored profile holding only a Medium binding: neither a LeetCode nor
a GitHub binding exists on it. -/
def exProfileNoBindings : Profile :=
  { platforms := [{ name := "Medium", username := "bob" }] }

/-- Helper: folding addition of a projection over a repository list from an
accumulator equals the accumulator plus the sum of the mapped list. -/
theorem foldl_stars_eq_sum (l : List GhRepo) :
    ∀ acc : Nat,
      l.foldl (fun a r => a + r.stargazers_count) acc =
        acc + (l.map fun r => r.stargazers_count).sum := by
  induction l with
  | nil => intro acc; simp
  | cons r rs ih => intro acc; simp [ih, Nat.add_assoc]

/-- Helper: the difficulty extraction chain of the LeetCode formatter equals
the specification-side find-and-default reading, for any payload fragment. -/
theorem getD_find_count (o : Option (List AcSubmission)) (label : String) :
    (((o.bind fun l => l.find? fun i => i.difficulty == label).map fun i => i.count).getD 0) =
      specDifficultyCount label (o.getD []) := by
  cases o with
  | none => simp [specDifficultyCount]
  | some l =>
    cases hf : l.find? fun i => i.difficulty == label with
    | none => simp [specDifficultyCount, hf]
    | some e => simp [specDifficultyCount, hf]

/-- Claim C1 counterexample: the LeetCode username route answers an upstream
failure with success false and status 500 and no synthesized record, so the
claimed success-true synthesis contract does not hold for every platform. -/
theorem c1_counterexample :
    (leetcodeUsernameHandler "alice" (Except.error "timeout")).success = false ∧
    (leetcodeUsernameHandler "alice" (Except.error "timeout")).status = 500 ∧
    (leetcodeUsernameHandler "alice" (Except.error "timeout")).data = none :=
  ⟨rfl, rfl, rfl⟩

/-- Claim C1 (amended): on upstream failure the GitHub username route
answers success true with status 200 and the synthesized record, whose
dataSource marks it as mock data; the LeetCode username route instead
answers success false with status 500. -/
theorem c1_upstream_failure_behaviour (u : String) (now : Int)
    (ur : Except String GhUserData) (rr : Except String (List GhRepo)) (e : String)
    (h : ur.isOk = false ∨ rr.isOk = false) :
    ((githubUsernameHandler u now ur rr).success = true ∧
     (githubUsernameHandler u now ur rr).status = 200 ∧
     (githubUsernameHandler u now ur rr).data = some (mockGithubStats u now) ∧
     (mockGithubStats u now).dataSource = "Mock Data (GitHub API unavailable)") ∧
    ((leetcodeUsernameHandler u (Except.error e)).success = false ∧
     (leetcodeUsernameHandler u (Except.error e)).status = 500) := by
  cases ur with
  | error a => exact ⟨⟨rfl, rfl, rfl, rfl⟩, rfl, rfl⟩
  | ok a =>
    cases rr with
    | error b => exact ⟨⟨rfl, rfl, rfl, rfl⟩, rfl, rfl⟩
    | ok b => rcases h with h | h <;> simp [Except.isOk, Except.toBool] at h

/-- Claim C1 witness: the amended statement at a concrete failed upstream. -/
theorem c1_witness :
    ((githubUsernameHandler "alice" 0 (Except.error "timeout") (Except.error "timeout")).success = true ∧
     (githubUsernameHandler "alice" 0 (Except.error "timeout") (Except.error "timeout")).status = 200 ∧
     (githubUsernameHandler "alice" 0 (Except.error "timeout") (Except.error "timeout")).data =
       some (mockGithubStats "alice" 0) ∧
     (mockGithubStats "alice" 0).dataSource = "Mock Data (GitHub API unavailable)") ∧
    ((leetcodeUsernameHandler "alice" (Except.error "timeout")).success = false ∧
     (leetcodeUsernameHandler "alice" (Except.error "timeout")).status = 500) :=
  c1_upstream_failure_behaviour "alice" 0 (Except.error "timeout") (Except.error "timeout")
    "timeout" (Or.inl rfl)

/-- Claim C2 counterexample: the mock synthesis is not a pure function of
the username alone, because the current time flows into the record; two
calls one day apart differ. -/
theorem c2_counterexample :
    mockGithubStats "alice" 0 ≠ mockGithubStats "alice" 86400000 := by
  intro h
  exact absurd (congrArg GithubStatsRec.lastUpdated h) (by decide)

/-- Claim C2 (amended): the mock synthesis is a pure function of the
username and the current time; with the two time-derived fields lastUpdated
and topRepos updatedAt erased, the record is independent of the time, and
lastUpdated is exactly the current time. -/
theorem c2_time_stripped_determinism (u : String) (t₁ t₂ : Int) :
    stripTimestamps (mockGithubStats u t₁) = stripTimestamps (mockGithubStats u t₂) ∧
    (mockGithubStats u t₁).lastUpdated = t₁ := by
  constructor
  · simp only [mockGithubStats, stripTimestamps, List.map_map, List.foldl_map]
    rfl
  · rfl

/-- Claim C3: with no stored profile, or a profile carrying no binding for
the requested platform, both authenticated routes answer 404 with success
false and no data, and in particular never fall back to synthesis. -/
theorem c3_profile_not_found (p : Option Profile) (lcUp : Except String LcUserData)
    (ghUr : Except String GhUserData) (ghRr : Except String (List GhRepo)) (now : Int)
    (h : match p with
         | none => True
         | some prof =>
           prof.platforms.find? (fun pl => pl.name == "LeetCode") = none ∧
           prof.platforms.find? (fun pl => pl.name == "GitHub") = none) :
    ((leetcodeProfileHandler p lcUp).status = 404 ∧
     (leetcodeProfileHandler p lcUp).success = false ∧
     (leetcodeProfileHandler p lcUp).data = none) ∧
    ((githubProfileHandler p now ghUr ghRr).status = 404 ∧
     (githubProfileHandler p now ghUr ghRr).success = false ∧
     (githubProfileHandler p now ghUr ghRr).data = none) := by
  cases p with
  | none => exact ⟨⟨rfl, rfl, rfl⟩, rfl, rfl, rfl⟩
  | some prof =>
    obtain ⟨h₁, h₂⟩ := h
    simp [leetcodeProfileHandler, githubProfileHandler, h₁, h₂]

/-- Claim C3 witness: the not-found envelopes at a concrete profile that
binds only Medium. -/
theorem c3_witness :
    ((leetcodeProfileHandler (some exProfileNoBindings) (Except.error "down")).status = 404 ∧
     (leetcodeProfileHandler (some exProfileNoBindings) (Except.error "down")).success = false ∧
     (leetcodeProfileHandler (some exProfileNoBindings) (Except.error "down")).data = none) ∧
    ((githubProfileHandler (some exProfileNoBindings) 0 (Except.error "down") (Except.error "down")).status = 404 ∧
     (githubProfileHandler (some exProfileNoBindings) 0 (Except.error "down") (Except.error "down")).success = false ∧
     (githubProfileHandler (some exProfileNoBindings) 0 (Except.error "down") (Except.error "down")).data = none) :=
  c3_profile_not_found (some exProfileNoBindings) (Except.error "down") (Except.error "down")
    (Except.error "down") 0 ⟨by decide, by decide⟩

/-- Claim C4: when the user-profile call succeeds but the repository call
fails, the GitHub username route answers with the full synthesized record,
identical to the total-failure answer, with no partial merging of the real
profile payload. -/
theorem c4_partial_failure_full_synthesis (u : String) (now : Int) (ud : GhUserData) (e : String) :
    githubUsernameHandler u now (Except.ok ud) (Except.error e) =
      { status := 200, success := true, data := some (mockGithubStats u now), error := none } ∧
    githubUsernameHandler u now (Except.ok ud) (Except.error e) =
      githubUsernameHandler u now (Except.error e) (Except.error e) :=
  ⟨rfl, rfl⟩

/-- Claim C5: the field-name sets of the real-data and mock-data githubStats
object literals agree, at the record level, the topRepos entry level and the
languages entry level; the lists are in fact identical including order. -/
theorem c5_shape_parity :
    ghRealFieldNames = ghMockFieldNames ∧
    ghRealFieldNames.toFinset = ghMockFieldNames.toFinset ∧
    ghRealRepoFieldNames = ghMockRepoFieldNames ∧
    ghRealRepoFieldNames.toFinset = ghMockRepoFieldNames.toFinset ∧
    ghRealLangFieldNames = ghMockLangFieldNames :=
  ⟨rfl, congrArg List.toFinset rfl, rfl, congrArg List.toFinset rfl, rfl⟩

/-- Claim C6: each solved counter of the LeetCode formatter is the count of
the first entry matching the corresponding difficulty label, defaulting to
0 when no entry matches; on the spec example payload without an All entry,
totalSolved is 0 rather than the sum 4 of the other entries. -/
theorem c6_difficulty_extraction (ud : LcUserData) :
    (leetcodeStats ud).totalSolved = specDifficultyCount "All" ((lcAcNum ud).getD []) ∧
    (leetcodeStats ud).easySolved = specDifficultyCount "Easy" ((lcAcNum ud).getD []) ∧
    (leetcodeStats ud).mediumSolved = specDifficultyCount "Medium" ((lcAcNum ud).getD []) ∧
    (leetcodeStats ud).hardSolved = specDifficultyCount "Hard" ((lcAcNum ud).getD []) ∧
    (leetcodeStats exampleLcNoAll).totalSolved = 0 ∧
    (leetcodeStats exampleLcNoAll).easySolved = 3 ∧
    (leetcodeStats exampleLcNoAll).hardSolved = 1 :=
  ⟨getD_find_count (lcAcNum ud) "All", getD_find_count (lcAcNum ud) "Easy",
   getD_find_count (lcAcNum ud) "Medium", getD_find_count (lcAcNum ud) "Hard",
   by decide, by decide, by decide⟩

/-- Claim C7: the normalized totalStars is the sum of stargazers_count over
all fetched repositories; star counts 5, 0, 12 give 17 and the empty list
gives 0. -/
theorem c7_total_stars (ud : GhUserData) (repos : List GhRepo) (now : Int) :
    (realGithubStats ud repos now).totalStars = (repos.map fun r => r.stargazers_count).sum ∧
    (realGithubStats exGhUser exampleStarRepos 0).totalStars = 17 ∧
    (realGithubStats ud [] now).totalStars = 0 := by
  refine ⟨?_, by decide, rfl⟩
  have h := foldl_stars_eq_sum repos 0
  simpa [realGithubStats] using h

/-- Claim C8: topTags is the take-5 truncation of a reordering of the
concatenated tag tiers that is non-increasing in problemsSolved and keeps
tied entries in their original concatenation order. -/
theorem c8_top_tags (ud : LcUserData) :
    ∃ s : List TagCount,
      s.Perm (lcMergedTags ud) ∧
      s.Pairwise (fun a b => b.problemsSolved ≤ a.problemsSolved) ∧
      (∀ a b : TagCount, a.problemsSolved = b.problemsSolved →
        List.Sublist [a, b] (lcMergedTags ud) → List.Sublist [a, b] s) ∧
      (leetcodeStats ud).topTags = s.take 5 ∧
      (leetcodeStats ud).topTags.length ≤ 5 := by
  have htrans : ∀ a b c : TagCount, tagCmpLe a b → tagCmpLe b c → tagCmpLe a c := by
    intro a b c hab hbc
    simp only [tagCmpLe, decide_eq_true_eq] at *
    omega
  have htotal : ∀ a b : TagCount, tagCmpLe a b || tagCmpLe b a := by
    intro a b
    simp only [tagCmpLe, Bool.or_eq_true, decide_eq_true_eq]
    omega
  refine ⟨(lcMergedTags ud).mergeSort tagCmpLe, List.mergeSort_perm _ _, ?_, ?_, rfl, ?_⟩
  · exact (List.sorted_mergeSort htrans htotal (lcMergedTags ud)).imp
      (fun hb => by simpa [tagCmpLe] using hb)
  · intro a b hab hsub
    exact List.pair_sublist_mergeSort htrans htotal (by simp [tagCmpLe, hab]) hsub
  · show (((lcMergedTags ud).mergeSort tagCmpLe).take 5).length ≤ 5
    simp [List.length_take]

/-- Claim C8 witness: the characterization instantiated at a concrete
payload holding tags in all three tiers. -/
theorem c8_witness :
    ∃ s : List TagCount,
      s.Perm (lcMergedTags exampleLcTags) ∧
      s.Pairwise (fun a b => b.problemsSolved ≤ a.problemsSolved) ∧
      (∀ a b : TagCount, a.problemsSolved = b.problemsSolved →
        List.Sublist [a, b] (lcMergedTags exampleLcTags) → List.Sublist [a, b] s) ∧
      (leetcodeStats exampleLcTags).topTags = s.take 5 ∧
      (leetcodeStats exampleLcTags).topTags.length ≤ 5 :=
  c8_top_tags exampleLcTags

/-- Claim C9 counterexample: the LeetCode GraphQL request is one of the
upstream requests of the stat endpoints and carries no timeout option, so
not every upstream request is bounded by 5 seconds. -/
theorem c9_counterexample :
    leetcodeUpstreamRequest ∈ statUpstreamRequests "alice" ∧
    leetcodeUpstreamRequest.timeoutMs = none :=
  ⟨by decide, rfl⟩

/-- Claim C9 (amended): both requests of the GitHub username route carry a
5000 millisecond timeout, while the LeetCode GraphQL request sets none. -/
theorem c9_github_timeout_bounded (u : String) (r : RequestSpec)
    (h : r ∈ githubUpstreamRequests u) :
    r.timeoutMs = some 5000 ∧ leetcodeUpstreamRequest.timeoutMs = none := by
  refine ⟨?_, rfl⟩
  simp only [githubUpstreamRequests, List.mem_cons, List.not_mem_nil, or_false] at h
  rcases h with rfl | rfl <;> rfl

/-- Claim C9 witness: the amended statement at a concrete GitHub request. -/
theorem c9_witness :
    ({ url := "https://api.github.com/users/alice", timeoutMs := some 5000 } : RequestSpec).timeoutMs =
      some 5000 ∧
    leetcodeUpstreamRequest.timeoutMs = none :=
  c9_github_timeout_bounded "alice"
    { url := "https://api.github.com/users/alice", timeoutMs := some 5000 } (by decide)

/-- Claim C10: every entry of the synthesized topRepos list carries the same
seed-determined stars value, the same forks value, and a name built from the
fixed vocabulary with the same numeric suffix, because the seeded selector
returns the same value on every call with the same bounds. -/
theorem c10_mock_repo_uniformity (u : String) (now : Int) (r : RepoEntry)
    (h : r ∈ (mockGithubStats u now).topRepos) :
    r.stars = jsRandom (seedOf u) 0 150 ∧
    r.forks = jsRandom (seedOf u) 0 50 ∧
    ∃ base ∈ mockRepoNames, r.name = base ++ "-" ++ toString (jsRandom (seedOf u) 1 99) := by
  simp only [mockGithubStats, List.mem_map] at h
  obtain ⟨nm, hnm, rfl⟩ := h
  exact ⟨rfl, rfl, nm, List.mem_of_mem_take hnm, rfl⟩

/-- Claim C10 witness: the uniformity facts at a concrete synthesized entry
for the username string a. -/
theorem c10_witness :
    ({ name := "awesome-project-10",
       description := some "A awesome project built with modern technologies",
       stars := 14, forks := 4, url := "https://github.com/a/awesome-project",
       language := some "JavaScript", updatedAt := -777600000 } : RepoEntry).stars =
      jsRandom (seedOf "a") 0 150 ∧
    ({ name := "awesome-project-10",
       description := some "A awesome project built with modern technologies",
       stars := 14, forks := 4, url := "https://github.com/a/awesome-project",
       language := some "JavaScript", updatedAt := -777600000 } : RepoEntry).forks =
      jsRandom (seedOf "a") 0 50 ∧
    ∃ base ∈ mockRepoNames,
      ({ name := "awesome-project-10",
         description := some "A awesome project built with modern technologies",
         stars := 14, forks := 4, url := "https://github.com/a/awesome-project",
         language := some "JavaScript", updatedAt := -777600000 } : RepoEntry).name =
        base ++ "-" ++ toString (jsRandom (seedOf "a") 1 99) :=
  c10_mock_repo_uniformity "a" 0
    { name := "awesome-project-10",
      description := some "A awesome project built with modern technologies",
      stars := 14, forks := 4, url := "https://github.com/a/awesome-project",
      language := some "JavaScript", updatedAt := -777600000 } (by decide)
